import Mathlib

/-!
Shallow embedding of `sentence_transformers/evaluation/MSESimilarityEvaluator.py`.

The Python class `MSESimilarityEvaluator` evaluates a sentence-embedding model
against gold similarity labels: it encodes two parallel lists of sentences,
computes four per-pair similarity/distance metrics (cosine similarity,
negated Manhattan distance, negated Euclidean distance, dot product),
takes the mean squared error of each metric array against the labels,
optionally appends a CSV row, and returns one selected MSE (or the minimum).

Real-valued embedding vectors are modelled as `List ℝ`; packed quantized
embeddings (binary / ubinary precision) as `List ℤ` rows of bytes.  The float
value `nan` produced by `np.mean` on an empty array is modelled by the
explicit constructor `Flt.nan`; all other float arithmetic is idealized as
exact real arithmetic.  The CSV file written by `__call__` is modelled as an
`Option (List (List Cell))`: `none` means the file does not exist yet.
-/

/-- Model of the `SimilarityFunction` enum values that `__call__` compares
`self.main_similarity` against; `other s` stands for any further value the
attribute could hold (Python is dynamically typed). -/
inductive Selector where
  | cosine
  | euclidean
  | manhattan
  | dot
  | other (s : String)
deriving DecidableEq, Repr

/-- Model of the `precision` literal argument:
one of "float32", "int8", "uint8", "binary", "ubinary". -/
inductive Precision where
  | float32
  | int8
  | uint8
  | binary
  | ubinary
deriving DecidableEq, Repr

/-- String form of a precision mode, as interpolated into the CSV file name. -/
def Precision.toStr : Precision → String
  | .float32 => "float32"
  | .int8 => "int8"
  | .uint8 => "uint8"
  | .binary => "binary"
  | .ubinary => "ubinary"

/-- Model of a numpy float scalar: either `nan` (what `np.mean` yields on an
empty array) or an exact real value. -/
inductive Flt where
  | nan
  | val (x : ℝ)

/-- Model of one CSV cell as written by `csv.writer.writerow`: the code writes
the integers `epoch` and `steps`, float MSE values, and string header cells. -/
inductive Cell where
  | int (n : ℤ)
  | num (f : Flt)
  | str (s : String)

/-- Content of the CSV file: a list of rows, each a list of cells. -/
abbrev CsvContent := List (List Cell)

/-- The derived CSV file name, from `__init__`:
`"MSE_similarity_evaluation" + ("_" + name if name else "") + ("_" + precision if precision else "") + "_results.csv"`. -/
def csvFileName (name : String) (precision : Option Precision) : String :=
  "MSE_similarity_evaluation"
    ++ (if name = "" then "" else "_" ++ name)
    ++ (match precision with
        | some p => "_" ++ p.toStr
        | none => "")
    ++ "_results.csv"

/-- The constant `csv_headers` field set in `__init__`. -/
def csvHeaders : List String :=
  ["epoch", "steps", "MSE_cosine", "MSE_euclidean", "MSE_manhattan", "MSE_dot"]

/-- State of a constructed `MSESimilarityEvaluator` instance: every field that
`__init__` stores on `self` (the embedding-irrelevant `show_progress_bar`
flag is kept as a plain `Bool`). -/
structure Evaluator where
  sentences1 : List String
  sentences2 : List String
  scores : List ℝ
  write_csv : Bool
  precision : Option Precision
  main_similarity : Option Selector
  name : String
  batch_size : ℕ
  show_progress_bar : Bool
  csv_file : String
  csv_headers : List String

/-- Model of `__init__`: stores the fields, then
`assert len(self.sentences1) == len(self.sentences2)` and
`assert len(self.sentences1) == len(self.scores)`; a failed `assert` raises
`AssertionError`, so no object is produced.  Derives `csv_file` and
`csv_headers`. -/
def MSEInit (sentences1 sentences2 : List String) (scores : List ℝ)
    (batch_size : ℕ) (main_similarity : Option Selector) (name : String)
    (show_progress_bar : Bool) (write_csv : Bool)
    (precision : Option Precision) : Except String Evaluator :=
  if sentences1.length = sentences2.length then
    if sentences1.length = scores.length then
      .ok
        { sentences1 := sentences1
          sentences2 := sentences2
          scores := scores
          write_csv := write_csv
          precision := precision
          main_similarity := main_similarity
          name := name
          batch_size := batch_size
          show_progress_bar := show_progress_bar
          csv_file := csvFileName name precision
          csv_headers := csvHeaders }
    else .error "AssertionError"
  else .error "AssertionError"

/-- Model of `cls.from_input_examples`: project element 0, element 1 and the
label of each example, then delegate to the primary constructor. -/
def fromInputExamples (examples : List (String × String × ℝ))
    (batch_size : ℕ) (main_similarity : Option Selector) (name : String)
    (show_progress_bar : Bool) (write_csv : Bool)
    (precision : Option Precision) : Except String Evaluator :=
  MSEInit (examples.map (fun e => e.1)) (examples.map (fun e => e.2.1))
    (examples.map (fun e => e.2.2)) batch_size main_similarity name
    show_progress_bar write_csv precision

/-- Dot product of two vectors, `np.dot(emb1, emb2)` on equal-length 1-D
arrays (Lean's `zip` truncates to the shorter list; numpy would raise on a
length mismatch, which the evaluator never produces). -/
noncomputable def dotL (u v : List ℝ) : ℝ :=
  ((u.zip v).map (fun p => p.1 * p.2)).sum

/-- Euclidean norm of a vector, as used inside sklearn's cosine distance. -/
noncomputable def norm2 (u : List ℝ) : ℝ :=
  Real.sqrt (dotL u u)

/-- Cosine distance between two vectors: `1 - cos_sim(u, v)`, the per-pair
value computed by `sklearn.metrics.pairwise.paired_cosine_distances`.
Division by zero in Lean yields `0`, so a zero vector gets distance `1`,
matching sklearn's handling of zero norms. -/
noncomputable def cosineDist (u v : List ℝ) : ℝ :=
  1 - dotL u v / (norm2 u * norm2 v)

/-- Manhattan (L1) distance between two vectors, the per-pair value computed
by `paired_manhattan_distances`. -/
noncomputable def manhattanDist (u v : List ℝ) : ℝ :=
  ((u.zip v).map (fun p => |p.1 - p.2|)).sum

/-- Euclidean (L2) distance between two vectors, the per-pair value computed
by `paired_euclidean_distances`. -/
noncomputable def euclideanDist (u v : List ℝ) : ℝ :=
  Real.sqrt (((u.zip v).map (fun p => (p.1 - p.2) ^ 2)).sum)

/-- Row-paired cosine distances of two embedding batches: the values
computed by `paired_cosine_distances(embeddings1, embeddings2)` on input
that passed the library's validation.  That validation — which rejects
zero-sample batches with a `ValueError` — is modelled separately by
`pairedCosineDistancesChecked` below. -/
noncomputable def pairedCosineDistances (e1 e2 : List (List ℝ)) : List ℝ :=
  (e1.zip e2).map (fun p => cosineDist p.1 p.2)

/-- Row-paired Manhattan distances: the values computed by
`paired_manhattan_distances(e1, e2)` on validated input; the validation is
modelled by `pairedManhattanDistancesChecked` below. -/
noncomputable def pairedManhattanDistances (e1 e2 : List (List ℝ)) : List ℝ :=
  (e1.zip e2).map (fun p => manhattanDist p.1 p.2)

/-- Row-paired Euclidean distances: the values computed by
`paired_euclidean_distances(e1, e2)` on validated input; the validation is
modelled by `pairedEuclideanDistancesChecked` below. -/
noncomputable def pairedEuclideanDistances (e1 e2 : List (List ℝ)) : List ℝ :=
  (e1.zip e2).map (fun p => euclideanDist p.1 p.2)

/-- `cosine_scores = 1 - paired_cosine_distances(embeddings1, embeddings2)`
(numpy broadcasts the subtraction over the array). -/
noncomputable def cosineScores (e1 e2 : List (List ℝ)) : List ℝ :=
  (pairedCosineDistances e1 e2).map (fun d => 1 - d)

/-- `manhattan_distances = -paired_manhattan_distances(embeddings1, embeddings2)`. -/
noncomputable def manhattanScores (e1 e2 : List (List ℝ)) : List ℝ :=
  (pairedManhattanDistances e1 e2).map (fun d => -d)

/-- `euclidean_distances = -paired_euclidean_distances(embeddings1, embeddings2)`. -/
noncomputable def euclideanScores (e1 e2 : List (List ℝ)) : List ℝ :=
  (pairedEuclideanDistances e1 e2).map (fun d => -d)

/-- `dot_products = np.array([np.dot(emb1, emb2) for emb1, emb2 in zip(embeddings1, embeddings2)])`. -/
noncomputable def dotScores (e1 e2 : List (List ℝ)) : List ℝ :=
  (e1.zip e2).map (fun p => dotL p.1 p.2)

/-- Elementwise squared differences `(metric - labels) ** 2` of two
equal-length arrays. -/
noncomputable def sqDiffs (xs ys : List ℝ) : List ℝ :=
  (xs.zip ys).map (fun p => (p.1 - p.2) ^ 2)

/-- Model of `np.mean`: `nan` on an empty array (numpy emits a warning and
returns nan), otherwise the exact arithmetic mean. -/
noncomputable def npMean (l : List ℝ) : Flt :=
  if l.length = 0 then .nan else .val (l.sum / l.length)

/-- One MSE value, `np.mean((metric - labels) ** 2)`. -/
noncomputable def evalMSE (metric labels : List ℝ) : Flt :=
  npMean (sqDiffs metric labels)

/-- `eval_mse_cosine = np.mean((cosine_scores - labels) ** 2)`. -/
noncomputable def mseCosine (e1 e2 : List (List ℝ)) (labels : List ℝ) : Flt :=
  evalMSE (cosineScores e1 e2) labels

/-- `eval_mse_manhattan = np.mean((manhattan_distances - labels) ** 2)`. -/
noncomputable def mseManhattan (e1 e2 : List (List ℝ)) (labels : List ℝ) : Flt :=
  evalMSE (manhattanScores e1 e2) labels

/-- `eval_mse_euclidean = np.mean((euclidean_distances - labels) ** 2)`. -/
noncomputable def mseEuclidean (e1 e2 : List (List ℝ)) (labels : List ℝ) : Flt :=
  evalMSE (euclideanScores e1 e2) labels

/-- `eval_mse_dot = np.mean((dot_products - labels) ** 2)`. -/
noncomputable def mseDot (e1 e2 : List (List ℝ)) (labels : List ℝ) : Flt :=
  evalMSE (dotScores e1 e2) labels

/-- The `<` comparison on Python floats: any comparison involving `nan` is
false. -/
noncomputable def fltLt (a b : Flt) : Bool :=
  match a, b with
  | .val x, .val y => decide (x < y)
  | _, _ => false

/-- Python's two-argument `min` step: keep the current best `a` unless the
next element `b` compares strictly below it. -/
noncomputable def pyMin (a b : Flt) : Flt :=
  if fltLt b a then b else a

/-- Python's `min(a, b, c, d)`: left fold of the pairwise step. -/
noncomputable def pyMin4 (a b c d : Flt) : Flt :=
  pyMin (pyMin (pyMin a b) c) d

/-- Model of the return dispatch at the end of `__call__` (the chained
`if self.main_similarity == ...` comparisons); the final `else` branch raises
`ValueError("Unknown main_similarity value")`.  Arguments are the four MSE
values in the order cosine, euclidean, manhattan, dot. -/
noncomputable def selectScore (ms : Option Selector) (c e m d : Flt) :
    Except String Flt :=
  if ms = some .cosine then .ok c
  else if ms = some .euclidean then .ok e
  else if ms = some .manhattan then .ok m
  else if ms = some .dot then .ok d
  else if ms = none then .ok (pyMin4 c m e d)
  else .error "Unknown main_similarity value"

/-- The data row written by `writer.writerow([epoch, steps, eval_mse_cosine,
eval_mse_euclidean, eval_mse_manhattan, eval_mse_dot])`. -/
def dataRow (epoch steps : ℤ) (c e m d : Flt) : List Cell :=
  [.int epoch, .int steps, .num c, .num e, .num m, .num d]

/-- The CSV write block of `__call__`: if the file does not exist
(`os.path.isfile` false), open in mode "w" and write the header row first;
otherwise open in mode "a"; then append the data row. -/
def csvAppend (file : Option CsvContent) (headers : List String)
    (row : List Cell) : CsvContent :=
  match file with
  | none => [headers.map Cell.str, row]
  | some rows => rows ++ [row]

/-- Result of one `__call__`: the returned float (or the raised error), the
post-state of the CSV file at the derived path, and the evaluator object
after the call (Python's `self`, which the method never mutates). -/
structure CallOut where
  result : Except String Flt
  file : Option CsvContent
  evaluator : Evaluator

/-- Model of `__call__` from the point where both embedding arrays are in
hand (line `labels = self.scores` onward): compute the four metric arrays
and their MSEs, append the CSV row when `output_path is not None and
self.write_csv`, and dispatch on `self.main_similarity`.  The `file`
argument is the pre-call content of the derived CSV path (`none` = the file
does not exist).  This models the stage after the sklearn input validation
has succeeded; `callChecked` below adds that validation. -/
noncomputable def callWithEmb (ev : Evaluator) (e1 e2 : List (List ℝ))
    (output_path : Option String) (file : Option CsvContent)
    (epoch steps : ℤ) : CallOut :=
  let labels := ev.scores
  let c := mseCosine e1 e2 labels
  let m := mseManhattan e1 e2 labels
  let eu := mseEuclidean e1 e2 labels
  let d := mseDot e1 e2 labels
  let file2 :=
    if output_path.isSome && ev.write_csv then
      some (csvAppend file ev.csv_headers (dataRow epoch steps c eu m d))
    else file
  { result := selectScore ev.main_similarity c eu m d
    file := file2
    evaluator := ev }

/-- `np.unpackbits` on one byte: the 8 bits, most significant first. -/
def unpackByte (b : ℤ) : List ℤ :=
  (List.range 8).map (fun k => b / 2 ^ (7 - k) % 2)

/-- `np.unpackbits(m, axis=1)`: each row's bytes expand in place into their
bits, so the row length multiplies by 8. -/
def npUnpackbits (m : List (List ℤ)) : List (List ℤ) :=
  m.map (fun row => row.flatMap unpackByte)

/-- `(m + 128).astype(np.uint8)`: add 128 to every entry, then reinterpret
as an unsigned byte (reduce modulo 256). -/
def binaryCorrect (m : List (List ℤ)) : List (List ℤ) :=
  m.map (fun row => row.map (fun b => (b + 128) % 256))

/-- The post-encode processing of packed embeddings in `__call__`
(the two `if` statements guarded by `self.precision`): binary precision
first applies the +128 unsigned-byte correction; binary and ubinary then
unpack every byte into bits. -/
def processPacked (p : Option Precision) (m : List (List ℤ)) :
    List (List ℤ) :=
  let m1 := if p = some .binary then binaryCorrect m else m
  if p = some .binary ∨ p = some .ubinary then npUnpackbits m1 else m1

/-- Cast an integer matrix to reals (numpy promotes the unpacked uint8
arrays to floats inside the distance computations). -/
noncomputable def intMatToReal (m : List (List ℤ)) : List (List ℝ) :=
  m.map (fun row => row.map (fun b => (b : ℝ)))

/-- Model of `__call__` on the quantized-precision branch for packed
(integer-valued) encodings: the model returns the packed matrices `p1`,
`p2` for the two sentence lists; they are processed by the two precision
`if` statements before any distance metric is computed, and the rest of the
call proceeds on the processed arrays. -/
noncomputable def callPacked (ev : Evaluator) (p1 p2 : List (List ℤ))
    (output_path : Option String) (file : Option CsvContent)
    (epoch steps : ℤ) : CallOut :=
  callWithEmb ev (intMatToReal (processPacked ev.precision p1))
    (intMatToReal (processPacked ev.precision p2)) output_path file epoch steps

/-- Input validation performed inside sklearn's `paired_cosine_distances`:
`check_paired_arrays` runs `check_array` on each batch (with its defaults
`ensure_2d=True`, `ensure_min_samples=1`) and then compares the two shapes,
so a batch with zero samples, or batches with differing sample counts,
raise `ValueError`; on valid input the paired distances are produced. -/
noncomputable def pairedCosineDistancesChecked (e1 e2 : List (List ℝ)) :
    Except String (List ℝ) :=
  if e1.length = 0 ∨ e2.length = 0 ∨ e1.length ≠ e2.length then
    .error "ValueError"
  else .ok (pairedCosineDistances e1 e2)

/-- Input validation of `paired_manhattan_distances`: identical
`check_array` / shape validation, then the Manhattan distances. -/
noncomputable def pairedManhattanDistancesChecked (e1 e2 : List (List ℝ)) :
    Except String (List ℝ) :=
  if e1.length = 0 ∨ e2.length = 0 ∨ e1.length ≠ e2.length then
    .error "ValueError"
  else .ok (pairedManhattanDistances e1 e2)

/-- Input validation of `paired_euclidean_distances`: identical
`check_array` / shape validation, then the Euclidean distances. -/
noncomputable def pairedEuclideanDistancesChecked (e1 e2 : List (List ℝ)) :
    Except String (List ℝ) :=
  if e1.length = 0 ∨ e2.length = 0 ∨ e1.length ≠ e2.length then
    .error "ValueError"
  else .ok (pairedEuclideanDistances e1 e2)

/-- Model of `__call__` from `labels = self.scores` onward including the
sklearn input validation: the three paired-distance calls at lines 146-148
validate their inputs in source order, and a `ValueError` raised there
aborts the call before any MSE, CSV write, or selector dispatch (the file
is left unchanged and no score is returned); if validation passes, the call
proceeds as `callWithEmb`. -/
noncomputable def callChecked (ev : Evaluator) (e1 e2 : List (List ℝ))
    (output_path : Option String) (file : Option CsvContent)
    (epoch steps : ℤ) : CallOut :=
  match pairedCosineDistancesChecked e1 e2 with
  | .error e => { result := .error e, file := file, evaluator := ev }
  | .ok _ =>
    match pairedManhattanDistancesChecked e1 e2 with
    | .error e => { result := .error e, file := file, evaluator := ev }
    | .ok _ =>
      match pairedEuclideanDistancesChecked e1 e2 with
      | .error e => { result := .error e, file := file, evaluator := ev }
      | .ok _ => callWithEmb ev e1 e2 output_path file epoch steps

/-- Statement of the spec's MSE formula, written from the spec's words
("the mean over i of (metric[i] − scores[i])²"), to be compared with the
code-side `evalMSE`. -/
noncomputable def specMSE (metric scores : List ℝ) : ℝ :=
  (∑ i ∈ Finset.range scores.length,
    (metric.getD i 0 - scores.getD i 0) ^ 2) / scores.length

/-- Concrete evaluator over the empty dataset, with CSV writing on and no
main-similarity selector; used to instantiate theorems at a concrete input. -/
def evA : Evaluator :=
  { sentences1 := []
    sentences2 := []
    scores := []
    write_csv := true
    precision := none
    main_similarity := none
    name := ""
    batch_size := 16
    show_progress_bar := false
    csv_file := csvFileName "" none
    csv_headers := csvHeaders }

/-- Concrete evaluator whose `main_similarity` holds an unrecognized value. -/
def evBad : Evaluator :=
  { evA with main_similarity := some (.other "jaccard") }

/-- Reassemble a most-significant-first bit list into the value it encodes. -/
def bitsToByte (bits : List ℤ) : ℤ :=
  bits.foldl (fun acc b => 2 * acc + b) 0

theorem getD_map_zip {α : Type} (g : List α → List α → α) (d0 : α) (dl : List α) :
    ∀ (e1 e2 : List (List α)) (i : ℕ), i < e1.length → i < e2.length →
      ((e1.zip e2).map (fun p => g p.1 p.2)).getD i d0 =
        g (e1.getD i dl) (e2.getD i dl) := by
  intro e1
  induction e1 with
  | nil => intro e2 i h1 _; exact absurd h1 (Nat.not_lt_zero i)
  | cons a t ih =>
    intro e2 i h1 h2
    cases e2 with
    | nil => exact absurd h2 (Nat.not_lt_zero i)
    | cons b t2 =>
      cases i with
      | zero => rfl
      | succ n =>
        simp only [List.zip_cons_cons, List.map_cons, List.getD_cons_succ]
        exact ih t2 n (Nat.lt_of_succ_lt_succ h1) (Nat.lt_of_succ_lt_succ h2)

theorem sum_zip_map (f : ℝ → ℝ → ℝ) :
    ∀ (xs ys : List ℝ) (n : ℕ), xs.length = n → ys.length = n →
      ((xs.zip ys).map (fun p => f p.1 p.2)).sum =
        ∑ i ∈ Finset.range n, f (xs.getD i 0) (ys.getD i 0) := by
  intro xs
  induction xs with
  | nil =>
    intro ys n h1 _
    subst h1
    simp
  | cons x t ih =>
    intro ys n h1 h2
    cases ys with
    | nil => simp at h1 h2; omega
    | cons y t2 =>
      cases n with
      | zero => simp at h1
      | succ m =>
        simp only [List.zip_cons_cons, List.map_cons, List.sum_cons]
        rw [Finset.sum_range_succ']
        simp only [List.getD_cons_succ, List.getD_cons_zero]
        rw [ih t2 m (by simpa using h1) (by simpa using h2)]
        ring

theorem length_zip_map {α β : Type} (g : List α → List α → β)
    (e1 e2 : List (List α)) (n : ℕ) (h1 : e1.length = n) (h2 : e2.length = n) :
    ((e1.zip e2).map (fun p => g p.1 p.2)).length = n := by
  simp [List.length_zip, h1, h2]

theorem pyMin_val (x y : ℝ) : pyMin (.val x) (.val y) = .val (min x y) := by
  unfold pyMin fltLt
  by_cases h : y < x
  · simp [h, min_eq_right (le_of_lt h)]
  · simp [h, min_eq_left (le_of_not_lt h)]

theorem pyMin4_val (a b c d : ℝ) :
    pyMin4 (.val a) (.val b) (.val c) (.val d) =
      .val (min (min (min a b) c) d) := by
  unfold pyMin4
  rw [pyMin_val, pyMin_val, pyMin_val]

theorem evalMSE_spec (metric labels : List ℝ) (n : ℕ)
    (hm : metric.length = n) (hl : labels.length = n) (hn : 1 ≤ n) :
    evalMSE metric labels = .val (specMSE metric labels) ∧
      0 ≤ specMSE metric labels := by
  have hlen : (sqDiffs metric labels).length = n := by
    simp [sqDiffs, List.length_zip, hm, hl]
  have hsum : (sqDiffs metric labels).sum =
      ∑ i ∈ Finset.range n, (metric.getD i 0 - labels.getD i 0) ^ 2 :=
    sum_zip_map (fun a b => (a - b) ^ 2) metric labels n hm hl
  have hspec : specMSE metric labels =
      (∑ i ∈ Finset.range n, (metric.getD i 0 - labels.getD i 0) ^ 2) / n := by
    rw [specMSE, hl]
  constructor
  · rw [evalMSE, npMean, hlen, if_neg (by omega : ¬ n = 0), hsum, hspec]
  · rw [hspec]
    apply div_nonneg
    · exact Finset.sum_nonneg fun i _ => sq_nonneg _
    · exact Nat.cast_nonneg n

/-- C2: for every dataset with N ≥ 1 pairs and every pair of embedding
batches of N rows each, each of the four reported MSE values equals the mean
over indices i of (metric[i] − scores[i])², and each of the four MSE values
is ≥ 0. -/
theorem mse_values_mean_and_nonneg (e1 e2 : List (List ℝ)) (labels : List ℝ)
    (n : ℕ) (h1 : e1.length = n) (h2 : e2.length = n) (hl : labels.length = n)
    (hn : 1 ≤ n) :
    (mseCosine e1 e2 labels = .val (specMSE (cosineScores e1 e2) labels) ∧
      0 ≤ specMSE (cosineScores e1 e2) labels) ∧
    (mseManhattan e1 e2 labels = .val (specMSE (manhattanScores e1 e2) labels) ∧
      0 ≤ specMSE (manhattanScores e1 e2) labels) ∧
    (mseEuclidean e1 e2 labels = .val (specMSE (euclideanScores e1 e2) labels) ∧
      0 ≤ specMSE (euclideanScores e1 e2) labels) ∧
    (mseDot e1 e2 labels = .val (specMSE (dotScores e1 e2) labels) ∧
      0 ≤ specMSE (dotScores e1 e2) labels) := by
  refine ⟨evalMSE_spec _ _ n ?_ hl hn, evalMSE_spec _ _ n ?_ hl hn,
    evalMSE_spec _ _ n ?_ hl hn, evalMSE_spec _ _ n ?_ hl hn⟩
  · simp [cosineScores, pairedCosineDistances, List.length_zip, h1, h2]
  · simp [manhattanScores, pairedManhattanDistances, List.length_zip, h1, h2]
  · simp [euclideanScores, pairedEuclideanDistances, List.length_zip, h1, h2]
  · simp [dotScores, List.length_zip, h1, h2]

/-- Witness for C2 at a concrete one-pair dataset. -/
theorem mse_values_mean_and_nonneg_witness :
    (1 ≤ 1) ∧
    (mseCosine [[(1:ℝ), 0]] [[(1:ℝ), 0]] [(1:ℝ)] =
        .val (specMSE (cosineScores [[(1:ℝ), 0]] [[(1:ℝ), 0]]) [(1:ℝ)]) ∧
      0 ≤ specMSE (cosineScores [[(1:ℝ), 0]] [[(1:ℝ), 0]]) [(1:ℝ)]) :=
  ⟨le_refl 1,
    (mse_values_mean_and_nonneg [[(1:ℝ), 0]] [[(1:ℝ), 0]] [(1:ℝ)] 1
      rfl rfl rfl (le_refl 1)).1⟩

/-- C1: the call returns exactly the configured metric's MSE when the
main-similarity selector is cosine, euclidean, manhattan or dot-product;
the Python `min` of the four MSE values when no selector was configured;
and the configuration error for any other selector value.  On real-valued
MSEs the Python `min` is the mathematical minimum of the four. -/
theorem call_selector_dispatch (ev : Evaluator) (e1 e2 : List (List ℝ))
    (op : Option String) (file : Option CsvContent) (epoch steps : ℤ)
    (a b c d : ℝ) :
    ((callWithEmb ev e1 e2 op file epoch steps).result =
      match ev.main_similarity with
      | some .cosine => .ok (mseCosine e1 e2 ev.scores)
      | some .euclidean => .ok (mseEuclidean e1 e2 ev.scores)
      | some .manhattan => .ok (mseManhattan e1 e2 ev.scores)
      | some .dot => .ok (mseDot e1 e2 ev.scores)
      | some (.other _) => .error "Unknown main_similarity value"
      | none => .ok (pyMin4 (mseCosine e1 e2 ev.scores)
          (mseManhattan e1 e2 ev.scores) (mseEuclidean e1 e2 ev.scores)
          (mseDot e1 e2 ev.scores))) ∧
    pyMin4 (.val a) (.val b) (.val c) (.val d) =
      .val (min (min (min a b) c) d) := by
  constructor
  · show selectScore ev.main_similarity _ _ _ _ = _
    rcases ev.main_similarity with _ | sel
    · simp [selectScore]
    · cases sel <;> simp [selectScore]
  · exact pyMin4_val a b c d

/-- C3: per pair i, the four metric values are 1 − cosine distance, the
negated Manhattan distance, the negated Euclidean distance, and the dot
product of the two embeddings; the two negated distance metrics are
monotonically non-increasing in the raw distance, so all four share the
"larger means more similar" orientation. -/
theorem metric_orientation (e1 e2 : List (List ℝ)) (i : ℕ)
    (h1 : i < e1.length) (h2 : i < e2.length) (u1 v1 u2 v2 : List ℝ) :
    (cosineScores e1 e2).getD i 0 =
        1 - cosineDist (e1.getD i []) (e2.getD i []) ∧
    (manhattanScores e1 e2).getD i 0 =
        -manhattanDist (e1.getD i []) (e2.getD i []) ∧
    (euclideanScores e1 e2).getD i 0 =
        -euclideanDist (e1.getD i []) (e2.getD i []) ∧
    (dotScores e1 e2).getD i 0 = dotL (e1.getD i []) (e2.getD i []) ∧
    (manhattanDist u1 v1 ≤ manhattanDist u2 v2 →
      -manhattanDist u2 v2 ≤ -manhattanDist u1 v1) ∧
    (euclideanDist u1 v1 ≤ euclideanDist u2 v2 →
      -euclideanDist u2 v2 ≤ -euclideanDist u1 v1) := by
  refine ⟨?_, ?_, ?_, ?_, fun h => neg_le_neg h, fun h => neg_le_neg h⟩
  · rw [cosineScores, pairedCosineDistances, List.map_map]
    exact getD_map_zip (fun u v => 1 - cosineDist u v) 0 [] e1 e2 i h1 h2
  · rw [manhattanScores, pairedManhattanDistances, List.map_map]
    exact getD_map_zip (fun u v => -manhattanDist u v) 0 [] e1 e2 i h1 h2
  · rw [euclideanScores, pairedEuclideanDistances, List.map_map]
    exact getD_map_zip (fun u v => -euclideanDist u v) 0 [] e1 e2 i h1 h2
  · exact getD_map_zip (fun u v => dotL u v) 0 [] e1 e2 i h1 h2

/-- Witness for C3 at concrete embeddings and a concrete distance pair. -/
theorem metric_orientation_witness :
    manhattanDist [(0:ℝ)] [3] ≤ manhattanDist [(0:ℝ)] [4] ∧
    euclideanDist [(0:ℝ)] [3] ≤ euclideanDist [(0:ℝ)] [4] ∧
    (cosineScores [[(1:ℝ), 0]] [[(0:ℝ), 1]]).getD 0 0 =
      1 - cosineDist ([[(1:ℝ), 0]].getD 0 []) ([[(0:ℝ), 1]].getD 0 []) ∧
    -manhattanDist [(0:ℝ)] [4] ≤ -manhattanDist [(0:ℝ)] [3] ∧
    -euclideanDist [(0:ℝ)] [4] ≤ -euclideanDist [(0:ℝ)] [3] := by
  have hman : manhattanDist [(0:ℝ)] [3] ≤ manhattanDist [(0:ℝ)] [4] := by
    simp [manhattanDist, List.zip, List.zipWith]
    norm_num
  have heuc : euclideanDist [(0:ℝ)] [3] ≤ euclideanDist [(0:ℝ)] [4] := by
    unfold euclideanDist
    apply Real.sqrt_le_sqrt
    simp [List.zip, List.zipWith]
    norm_num
  have h := metric_orientation [[(1:ℝ), 0]] [[(0:ℝ), 1]] 0 (by decide)
    (by decide) [(0:ℝ)] [3] [(0:ℝ)] [4]
  exact ⟨hman, heuc, h.1, h.2.2.2.2.1 hman, h.2.2.2.2.2 heuc⟩

/-- C5: construction fails with the validation error exactly when the three
input sequences' lengths are not all equal, and then no evaluator object
results; it succeeds when the three lengths agree. -/
theorem init_validation (s1 s2 : List String) (sc : List ℝ) (bs : ℕ)
    (ms : Option Selector) (nm : String) (spb wc : Bool)
    (p : Option Precision) :
    ((s1.length = s2.length ∧ s1.length = sc.length) →
      ∃ ev, MSEInit s1 s2 sc bs ms nm spb wc p = .ok ev) ∧
    (¬(s1.length = s2.length ∧ s1.length = sc.length) →
      MSEInit s1 s2 sc bs ms nm spb wc p = .error "AssertionError") := by
  constructor
  · rintro ⟨h1, h2⟩
    exact ⟨_, by rw [MSEInit, if_pos h1, if_pos h2]⟩
  · intro h
    rw [MSEInit]
    by_cases h1 : s1.length = s2.length
    · rw [if_pos h1, if_neg (fun h2 => h ⟨h1, h2⟩)]
    · rw [if_neg h1]

/-- Witness for C5: `sentences1` of length 3 and `scores` of length 2
raises the validation error, exactly the spec's test scenario. -/
theorem init_validation_witness :
    (¬((["a", "b", "c"] : List String).length =
          (["d", "e", "f"] : List String).length ∧
        (["a", "b", "c"] : List String).length = [(1:ℝ), 0].length)) ∧
    MSEInit ["a", "b", "c"] ["d", "e", "f"] [(1:ℝ), 0] 16 none "" false true
        none = .error "AssertionError" := by
  have h : ¬((["a", "b", "c"] : List String).length =
        (["d", "e", "f"] : List String).length ∧
      (["a", "b", "c"] : List String).length = [(1:ℝ), 0].length) := by
    decide
  exact ⟨h, (init_validation ["a", "b", "c"] ["d", "e", "f"] [(1:ℝ), 0] 16
    none "" false true none).2 h⟩

theorem data_app (s t : String) : (s ++ t).data = s.data ++ t.data := rfl

theorem string_eq_of_data {a b : String} (h : a.data = b.data) : a = b := by
  cases a; cases b; simp_all

theorem csvFileName_empty_ne (p : Option Precision) (n2 : String)
    (e2 : ¬ n2 = "") : csvFileName "" p ≠ csvFileName n2 p := by
  intro h
  have hd := congrArg String.data h
  simp only [csvFileName] at hd
  simp only [if_true] at hd
  rw [if_neg e2] at hd
  simp only [data_app, List.append_assoc] at hd
  have h3 := List.append_cancel_left hd
  have hl := congrArg List.length h3
  simp [List.length_append] at hl
  omega

theorem csvFileName_name_inj (p : Option Precision) (n1 n2 : String)
    (h : csvFileName n1 p = csvFileName n2 p) : n1 = n2 := by
  by_cases e1 : n1 = "" <;> by_cases e2 : n2 = ""
  · rw [e1, e2]
  · exact absurd (e1 ▸ h) (csvFileName_empty_ne p n2 e2)
  · exact absurd (e2 ▸ h.symm) (csvFileName_empty_ne p n1 e1)
  · have hd := congrArg String.data h
    simp only [csvFileName] at hd
    rw [if_neg e1, if_neg e2] at hd
    simp only [data_app, List.append_assoc] at hd
    have h3 := List.append_cancel_left (List.append_cancel_left hd)
    exact string_eq_of_data (List.append_cancel_right h3)

theorem csvFileName_prec_inj (nm : String) (p1 p2 : Option Precision)
    (h : csvFileName nm p1 = csvFileName nm p2) : p1 = p2 := by
  cases p1 with
  | none =>
    cases p2 with
    | none => rfl
    | some q2 =>
      exfalso
      cases q2 <;>
      · have hd := congrArg String.data h
        simp only [csvFileName, Precision.toStr, data_app,
          List.append_assoc] at hd
        have h3 := List.append_cancel_left (List.append_cancel_left hd)
        have hl := congrArg List.length h3
        simp [List.length_append] at hl
  | some q1 =>
    cases p2 with
    | none =>
      exfalso
      cases q1 <;>
      · have hd := congrArg String.data h
        simp only [csvFileName, Precision.toStr, data_app,
          List.append_assoc] at hd
        have h3 := List.append_cancel_left (List.append_cancel_left hd)
        have hl := congrArg List.length h3
        simp [List.length_append] at hl
    | some q2 =>
      cases q1 <;> cases q2 <;>
        first
        | rfl
        | (exfalso
           have hd := congrArg String.data h
           simp only [csvFileName, Precision.toStr, data_app,
             List.append_assoc] at hd
           have h4 := List.append_cancel_left
             (List.append_cancel_left (List.append_cancel_left hd))
           have h5 := List.append_cancel_right h4
           simp at h5)

/-- C7 (amended): the derived log-file name determines the name given the
precision and determines the precision given the name: two configurations
sharing a precision but differing in evaluator name, or sharing a name but
differing in precision, derive distinct file names (identical configurations
trivially derive the same name, `csvFileName` being a function).  Two
configurations differing in both name and precision can collide. -/
theorem csv_file_identity (p : Option Precision) (nm n1 n2 : String)
    (p1 p2 : Option Precision) :
    (csvFileName n1 p = csvFileName n2 p → n1 = n2) ∧
    (csvFileName nm p1 = csvFileName nm p2 → p1 = p2) :=
  ⟨csvFileName_name_inj p n1 n2, csvFileName_prec_inj nm p1 p2⟩

/-- Witness for C7's amended theorem at a concrete configuration. -/
theorem csv_file_identity_witness :
    csvFileName "a" (some .binary) = csvFileName "a" (some .binary) ∧
      ("a" : String) = "a" :=
  ⟨rfl, (csv_file_identity (some .binary) "a" "a" "a" (some .binary)
    (some .binary)).1 rfl⟩

/-- Counterexample to C7 as stated: the configuration with name "binary" and
no precision and the configuration with empty name and binary precision
differ, yet derive the same log-file name. -/
theorem csv_file_collision :
    csvFileName "binary" none = csvFileName "" (some .binary) ∧
      ¬("binary" = "" ∧ (none : Option Precision) = some .binary) := by
  constructor
  · rfl
  · decide

/-- C6: with an output path and persistence enabled, each call appends
exactly one data row (epoch, step, MSE_cosine, MSE_euclidean, MSE_manhattan,
MSE_dot), writing the header row first only when the file does not yet
exist; two successive calls starting from a missing file yield one header
row followed by exactly two data rows. -/
theorem call_csv_persistence (ev : Evaluator) (e1 e2 f1 f2 : List (List ℝ))
    (pth : String) (rows : CsvContent) (epoch steps st1 st2 : ℤ)
    (hw : ev.write_csv = true) :
    ((callWithEmb ev e1 e2 (some pth) none epoch steps).file =
      some [ev.csv_headers.map Cell.str,
        dataRow epoch steps (mseCosine e1 e2 ev.scores)
          (mseEuclidean e1 e2 ev.scores) (mseManhattan e1 e2 ev.scores)
          (mseDot e1 e2 ev.scores)]) ∧
    ((callWithEmb ev e1 e2 (some pth) (some rows) epoch steps).file =
      some (rows ++ [dataRow epoch steps (mseCosine e1 e2 ev.scores)
        (mseEuclidean e1 e2 ev.scores) (mseManhattan e1 e2 ev.scores)
        (mseDot e1 e2 ev.scores)])) ∧
    ((callWithEmb ev f1 f2 (some pth)
        ((callWithEmb ev e1 e2 (some pth) none 0 st1).file) 1 st2).file =
      some [ev.csv_headers.map Cell.str,
        dataRow 0 st1 (mseCosine e1 e2 ev.scores)
          (mseEuclidean e1 e2 ev.scores) (mseManhattan e1 e2 ev.scores)
          (mseDot e1 e2 ev.scores),
        dataRow 1 st2 (mseCosine f1 f2 ev.scores)
          (mseEuclidean f1 f2 ev.scores) (mseManhattan f1 f2 ev.scores)
          (mseDot f1 f2 ev.scores)]) := by
  refine ⟨?_, ?_, ?_⟩ <;> simp [callWithEmb, csvAppend, hw]

/-- Witness for C6 at the concrete evaluator `evA` and empty embeddings. -/
theorem call_csv_persistence_witness :
    evA.write_csv = true ∧
    ((callWithEmb evA [] [] (some "out") none 0 5).file =
      some [evA.csv_headers.map Cell.str,
        dataRow 0 5 (mseCosine [] [] evA.scores)
          (mseEuclidean [] [] evA.scores) (mseManhattan [] [] evA.scores)
          (mseDot [] [] evA.scores)]) :=
  ⟨rfl, (call_csv_persistence evA [] [] [] [] "out" [] 0 5 5 5 rfl).1⟩

/-- C8: a call never mutates the evaluator's stored state (the returned
`self` is the input evaluator, with every field unchanged); the only state
that changes is the CSV file, and only by the single append performed when
an output path is given and persistence is enabled. -/
theorem call_frame (ev : Evaluator) (e1 e2 : List (List ℝ))
    (op : Option String) (file : Option CsvContent) (epoch steps : ℤ) :
    ((callWithEmb ev e1 e2 op file epoch steps).evaluator = ev) ∧
    ((op.isSome && ev.write_csv) = false →
      (callWithEmb ev e1 e2 op file epoch steps).file = file) ∧
    ((op.isSome && ev.write_csv) = true →
      (callWithEmb ev e1 e2 op file epoch steps).file =
        some (csvAppend file ev.csv_headers
          (dataRow epoch steps (mseCosine e1 e2 ev.scores)
            (mseEuclidean e1 e2 ev.scores) (mseManhattan e1 e2 ev.scores)
            (mseDot e1 e2 ev.scores)))) := by
  refine ⟨rfl, fun hoff => ?_, fun hon => ?_⟩
  · simp [callWithEmb, hoff]
  · simp [callWithEmb, hon]

/-- Witness for C8: with no output path the file is untouched. -/
theorem call_frame_witness :
    ((none : Option String).isSome && evA.write_csv) = false ∧
    (callWithEmb evA [] [] none none 0 0).evaluator = evA ∧
    (callWithEmb evA [] [] none none 0 0).file = none :=
  ⟨rfl, (call_frame evA [] [] none none 0 0).1,
    (call_frame evA [] [] none none 0 0).2.1 rfl⟩

/-- C9: with an unrecognized main-similarity selector the call yields the
configuration error, but only after the CSV row has been appended: the
result is the error and the log file has nevertheless grown by one row. -/
theorem call_error_not_atomic (ev : Evaluator) (e1 e2 : List (List ℝ))
    (pth : String) (file : Option CsvContent) (epoch steps : ℤ) (s : String)
    (hms : ev.main_similarity = some (.other s)) (hw : ev.write_csv = true) :
    (callWithEmb ev e1 e2 (some pth) file epoch steps).result =
        .error "Unknown main_similarity value" ∧
    (callWithEmb ev e1 e2 (some pth) file epoch steps).file =
        some (csvAppend file ev.csv_headers
          (dataRow epoch steps (mseCosine e1 e2 ev.scores)
            (mseEuclidean e1 e2 ev.scores) (mseManhattan e1 e2 ev.scores)
            (mseDot e1 e2 ev.scores))) ∧
    (callWithEmb ev e1 e2 (some pth) file epoch steps).file ≠ file := by
  refine ⟨?_, ?_, ?_⟩
  · simp [callWithEmb, selectScore, hms]
  · simp [callWithEmb, hw]
  · simp only [callWithEmb, Option.isSome_some, hw, Bool.and_self, if_pos]
    rcases file with _ | rows
    · simp
    · simp [csvAppend]

/-- Witness for C9 at the concrete misconfigured evaluator `evBad`. -/
theorem call_error_not_atomic_witness :
    evBad.main_similarity = some (.other "jaccard") ∧
    evBad.write_csv = true ∧
    (callWithEmb evBad [] [] (some "out") none 0 0).result =
        .error "Unknown main_similarity value" ∧
    (callWithEmb evBad [] [] (some "out") none 0 0).file ≠ none :=
  ⟨rfl, rfl,
    (call_error_not_atomic evBad [] [] "out" none 0 0 "jaccard" rfl rfl).1,
    (call_error_not_atomic evBad [] [] "out" none 0 0 "jaccard" rfl rfl).2.2⟩

/-- C10 (amended): with the empty dataset construction succeeds (the two
length asserts pass), but an evaluation call does not complete: the input
validation inside the first paired-distance computation rejects the
zero-sample embedding batch with a `ValueError` before any MSE value is
computed, so the call raises instead of returning NaN, no score is
produced, and the CSV file is left unchanged. -/
theorem call_empty_dataset (ev : Evaluator) (op : Option String)
    (file : Option CsvContent) (epoch steps : ℤ) (bs : ℕ) (nm : String)
    (spb wc : Bool) (p : Option Precision) (ms : Option Selector)
    (e2 : List (List ℝ)) :
    (∃ ev0, MSEInit [] [] [] bs ms nm spb wc p = .ok ev0) ∧
    pairedCosineDistancesChecked [] e2 = .error "ValueError" ∧
    (callChecked ev [] e2 op file epoch steps).result =
      .error "ValueError" ∧
    (callChecked ev [] e2 op file epoch steps).file = file := by
  refine ⟨⟨_, rfl⟩, ?_, ?_, ?_⟩
  · simp [pairedCosineDistancesChecked]
  · simp [callChecked, pairedCosineDistancesChecked]
  · simp [callChecked, pairedCosineDistancesChecked]

/-- Counterexample to C10 as stated: at the concrete empty-dataset
evaluator the call's result is the ValueError raised by the paired-distance
input validation, not the claimed NaN score. -/
theorem call_empty_raises :
    (callChecked evA [] [] none none (-1) (-1)).result =
      .error "ValueError" ∧
    (callChecked evA [] [] none none (-1) (-1)).result ≠ .ok .nan := by
  constructor
  · simp [callChecked, pairedCosineDistancesChecked]
  · simp [callChecked, pairedCosineDistancesChecked]

theorem length_flatMap_unpack (row : List ℤ) :
    (row.flatMap unpackByte).length = 8 * row.length := by
  induction row with
  | nil => rfl
  | cons a t ih =>
    simp only [List.flatMap_cons, List.length_append, List.length_cons, ih]
    simp [unpackByte]
    ring

set_option maxHeartbeats 1000000 in
set_option maxRecDepth 10000 in
/-- C4: under binary precision the packed bytes are corrected by adding 128
and reinterpreting as unsigned 8-bit values before unpacking; under binary
or ubinary precision every packed byte is unpacked into its 8 constituent
0/1 bits (multiplying each row's length by 8) before any of the four
metrics is computed (the call's metric stage receives the processed
arrays). -/
theorem binary_unpacking (ev : Evaluator) (m : List (List ℤ)) (b b2 : ℤ)
    (hb : -128 ≤ b) (hb2 : b ≤ 127) :
    processPacked (some .binary) m = npUnpackbits (binaryCorrect m) ∧
    processPacked (some .ubinary) m = npUnpackbits m ∧
    ((b + 128) % 256 = b + 128 ∧ 0 ≤ b + 128 ∧ b + 128 ≤ 255) ∧
    (npUnpackbits m).map List.length = m.map (fun r => 8 * r.length) ∧
    (∀ y ∈ unpackByte b2, y = 0 ∨ y = 1) ∧
    (∀ k : Fin 256, bitsToByte (unpackByte (k : ℤ)) = (k : ℤ)) ∧
    (∀ (p1 p2 : List (List ℤ)) (op : Option String)
        (file : Option CsvContent) (epoch steps : ℤ),
      ev.precision = some .binary →
        callPacked ev p1 p2 op file epoch steps =
          callWithEmb ev (intMatToReal (npUnpackbits (binaryCorrect p1)))
            (intMatToReal (npUnpackbits (binaryCorrect p2)))
            op file epoch steps) := by
  refine ⟨?_, ?_, by omega, ?_, ?_, by decide, ?_⟩
  · simp [processPacked]
  · simp [processPacked]
  · simp only [npUnpackbits, List.map_map]
    apply List.map_congr_left
    intro r _
    exact length_flatMap_unpack r
  · intro y hy
    simp [unpackByte] at hy
    obtain ⟨k, hk, rfl⟩ := hy
    omega
  · intro p1 p2 op file epoch steps hp
    rw [callPacked, hp]
    simp [processPacked]

/-- Witness for C4 at a concrete packed byte and matrix. -/
theorem binary_unpacking_witness :
    ((-128 : ℤ) ≤ -3 ∧ (-3 : ℤ) ≤ 127) ∧
    processPacked (some .binary) [[(-3 : ℤ)]] =
      npUnpackbits (binaryCorrect [[(-3 : ℤ)]]) ∧
    ((-3 : ℤ) + 128) % 256 = -3 + 128 :=
  ⟨⟨by decide, by decide⟩,
    (binary_unpacking evA [[(-3 : ℤ)]] (-3) 0 (by decide) (by decide)).1,
    ((binary_unpacking evA [[(-3 : ℤ)]] (-3) 0 (by decide)
      (by decide)).2.2.1).1⟩
